import Mathlib

/-!
Shallow embedding of the tunerate-api core (NestJS + Prisma music-review API).

The local relational store (Prisma) is modelled as an explicit `DB` value
holding the rows of the four tables of `prisma/migrations/.../migration.sql`;
each service method of the repository becomes a pure Lean function that takes
the store (and, where the code calls the Spotify catalog client, an oracle
function standing for that HTTP collaborator) and returns the result together
with the possibly-updated store.  NestJS exceptions become the `ApiError`
type; raw Prisma errors (which carry a `code` string such as `"P2002"`)
become `StoreError`.
-/

/-- A raw store-layer (Prisma) error: the TS code inspects `error.code`. -/
structure StoreError where
  code : String
  deriving Repr, DecidableEq

/-- NestJS HTTP exceptions thrown by the services. -/
inductive ApiError where
  /-- Embeds `NotFoundException` -/
  | notFound
  /-- Embeds `ConflictException` -/
  | conflict
  /-- Embeds `ForbiddenException` -/
  | forbidden
  /-- Embeds `InternalServerErrorException` -/
  | internalError
  /-- a store-layer error propagated unchanged -/
  | store (e : StoreError)
  deriving Repr, DecidableEq

/-- Row of the `User` table. -/
structure User where
  id : Nat
  username : String
  email : String
  passwordHash : String
  createdAt : Nat
  deriving Repr, DecidableEq

/-- Row of the `Artist` table. -/
structure Artist where
  id : Nat
  externalId : String
  name : String
  imageUrl : Option String
  deriving Repr, DecidableEq

/-- Row of the `Album` table. -/
structure Album where
  id : Nat
  externalId : String
  title : String
  releaseDate : Option String
  coverUrl : Option String
  artistId : Nat
  deriving Repr, DecidableEq

/-- Row of the `Review` table. -/
structure Review where
  id : Nat
  userId : Nat
  albumId : Nat
  rating : Int
  comment : Option String
  createdAt : Nat
  deriving Repr, DecidableEq

/-- The relational store: the four tables plus the auto-increment counters. -/
structure DB where
  users : List User
  artists : List Artist
  albums : List Album
  reviews : List Review
  nextArtistId : Nat
  nextAlbumId : Nat
  nextReviewId : Nat
  deriving Repr, DecidableEq

/-- Embeds `CreateArtistDto` (dto/create-artist.dto.ts). -/
structure CreateArtistDto where
  externalId : String
  name : String
  imageUrl : Option String
  deriving Repr, DecidableEq

/-- Embeds `CreateAlbumDto` (dto/create-album.dto.ts shape used by AlbumsService.create). -/
structure CreateAlbumDto where
  externalId : String
  title : String
  releaseDate : Option String
  coverUrl : Option String
  artistExternalId : String
  deriving Repr, DecidableEq

/-- Embeds `CreateReviewDto` (dto/create-review.dto.ts). -/
structure CreateReviewDto where
  albumId : Nat
  rating : Int
  comment : Option String
  deriving Repr, DecidableEq

/-- Embeds `UpdateReviewDto`: a partial patch; `none` means the field is absent from
the request body, so Prisma leaves the column unchanged. -/
structure UpdateReviewDto where
  rating : Option Int
  comment : Option String
  deriving Repr, DecidableEq

/-- Record returned by `MusicApiService.getArtistDetails`. -/
structure ArtistDetails where
  externalId : String
  name : String
  imageUrl : Option String
  popularity : Option Int
  genres : List String
  deriving Repr, DecidableEq

/-- Record shape of the `MusicApiService.getArtistAlbums` result list. -/
structure ArtistAlbumRecord where
  externalId : String
  title : String
  releaseDate : Option String
  coverUrl : Option String
  albumType : Option String
  deriving Repr, DecidableEq

/-- Embeds `this.prisma.artist.create`: inserting a row into the `Artist` table.
`interference` models a failure injected by the store (e.g. the
unique-constraint violation a concurrent insert of the same `externalId`
provokes, surfaced by Prisma as code `"P2002"`); with no interference the
insert succeeds exactly when the unique index on `externalId` is respected. -/
def prismaArtistCreate (db : DB) (dto : CreateArtistDto)
    (interference : Option StoreError) : Except StoreError (Artist × DB) :=
  match interference with
  | some e => .error e
  | none =>
    if db.artists.any (fun a => a.externalId == dto.externalId) then
      .error ⟨"P2002"⟩
    else
      let a : Artist := ⟨db.nextArtistId, dto.externalId, dto.name, dto.imageUrl⟩
      .ok (a, { db with artists := db.artists ++ [a], nextArtistId := db.nextArtistId + 1 })

/-- Embeds `this.prisma.album.create` (same modelling as `prismaArtistCreate`;
the unique index is on `Album.externalId`). -/
def prismaAlbumCreate (db : DB) (dto : CreateAlbumDto) (artistId : Nat)
    (interference : Option StoreError) : Except StoreError (Album × DB) :=
  match interference with
  | some e => .error e
  | none =>
    if db.albums.any (fun al => al.externalId == dto.externalId) then
      .error ⟨"P2002"⟩
    else
      let al : Album := ⟨db.nextAlbumId, dto.externalId, dto.title, dto.releaseDate,
        dto.coverUrl, artistId⟩
      .ok (al, { db with albums := db.albums ++ [al], nextAlbumId := db.nextAlbumId + 1 })

namespace ArtistsService

/-- Embeds `ArtistsService.create`: re-check existence by `externalId`, return the
existing row if found, else insert; a caught store error with code `"P2002"`
is translated to `ConflictException`, any other error is rethrown unchanged. -/
def create (db : DB) (dto : CreateArtistDto) (interference : Option StoreError) :
    Except ApiError (Artist × DB) :=
  let body : Except StoreError (Artist × DB) :=
    match db.artists.find? (fun a => a.externalId == dto.externalId) with
    | some existing => .ok (existing, db)
    | none => prismaArtistCreate db dto interference
  match body with
  | .ok r => .ok r
  | .error e => if e.code == "P2002" then .error .conflict else .error (.store e)

/-- Result of `getArtistDetailsByExternalId`: the artist row, the store after
the call, and whether the catalog client was called. -/
structure ResolveResult where
  artist : Artist
  db : DB
  catalogCalled : Bool
  deriving Repr, DecidableEq

/-- Embeds `ArtistsService.getArtistDetailsByExternalId`: look the artist up locally
by `externalId`; if present return it (no catalog call), else fetch details
from the catalog client (`getArtistDetails`, modelled by the oracle
`catalog`) and persist them via `create`. -/
def getArtistDetailsByExternalId (db : DB)
    (catalog : String → Except ApiError ArtistDetails) (externalId : String) :
    Except ApiError ResolveResult :=
  match db.artists.find? (fun a => a.externalId == externalId) with
  | some existing => .ok ⟨existing, db, false⟩
  | none =>
    match catalog externalId with
    | .error e => .error e
    | .ok d =>
      match create db ⟨d.externalId, d.name, d.imageUrl⟩ none with
      | .error e => .error e
      | .ok (a, db') => .ok ⟨a, db', true⟩

/-- Result of `ArtistsService.getArtistAlbums`: either locally stored `Album`
rows or catalog-shaped records returned unpersisted. -/
inductive ArtistAlbumsResult where
  | stored (albums : List Album)
  | catalog (records : List ArtistAlbumRecord)
  deriving Repr, DecidableEq

/-- Embeds `ArtistsService.getArtistAlbums`: 404 if the artist id is unknown; return
the locally stored albums of the artist when at least one exists; otherwise
return the catalog client records for the `externalId` of the artist without persisting
them. -/
def getArtistAlbums (db : DB)
    (catalog : String → Except ApiError (List ArtistAlbumRecord))
    (artistId : Nat) : (Except ApiError ArtistAlbumsResult) × DB :=
  match db.artists.find? (fun a => a.id == artistId) with
  | none => (.error .notFound, db)
  | some artist =>
    let albumsInDb := db.albums.filter (fun al => al.artistId == artistId)
    if albumsInDb.length > 0 then
      (.ok (.stored albumsInDb), db)
    else
      match catalog artist.externalId with
      | .error e => (.error e, db)
      | .ok records => (.ok (.catalog records), db)

end ArtistsService

namespace AlbumsService

/-- Embeds `AlbumsService.create`: re-check existence by `externalId` (return the
existing row); resolve the owning artist (local lookup by
`artistExternalId`, else catalog `getArtistDetails` then
`ArtistsService.create`); insert the album connected to that artist.  The
whole body sits in a try/catch whose handler maps a store error with code
`"P2002"` to `ConflictException` and rethrows everything else. -/
def create (db : DB) (dto : CreateAlbumDto)
    (getArtistDetailsOracle : String → Except ApiError ArtistDetails)
    (artistInterference albumInterference : Option StoreError) :
    Except ApiError (Album × DB) :=
  let body : Except ApiError (Album × DB) :=
    match db.albums.find? (fun al => al.externalId == dto.externalId) with
    | some existing => .ok (existing, db)
    | none =>
      let artistStep : Except ApiError (Artist × DB) :=
        match db.artists.find? (fun a => a.externalId == dto.artistExternalId) with
        | some artist => .ok (artist, db)
        | none =>
          match getArtistDetailsOracle dto.artistExternalId with
          | .error e => .error e
          | .ok d =>
            ArtistsService.create db ⟨d.externalId, d.name, d.imageUrl⟩ artistInterference
      match artistStep with
      | .error e => .error e
      | .ok (artist, db1) =>
        match prismaAlbumCreate db1 dto artist.id albumInterference with
        | .ok r => .ok r
        | .error e => .error (.store e)
  match body with
  | .error (.store e) => if e.code == "P2002" then .error .conflict else .error (.store e)
  | r => r

/-- Result of `getAlbumRating`. -/
structure AlbumRating where
  averageRating : ℚ
  reviewCount : Nat
  deriving Repr, DecidableEq

/-- Embeds `AlbumsService.getAlbumRating`: load the ratings of the reviews of the album;
`{averageRating: 0, reviewCount: 0}` when there are none, else the arithmetic
mean (`totalRating / reviews.length`, exact in `ℚ`) and the count. -/
def getAlbumRating (db : DB) (id : Nat) : AlbumRating :=
  let reviews := db.reviews.filter (fun r => r.albumId == id)
  if reviews.length = 0 then
    ⟨0, 0⟩
  else
    let totalRating : Int := reviews.foldl (fun sum r => sum + r.rating) 0
    ⟨(totalRating : ℚ) / (reviews.length : ℚ), reviews.length⟩

end AlbumsService

namespace ReviewsService

/-- Embeds `ReviewsService.create`: 404 if the album is absent locally; 409 if a
review with the same `(userId, albumId)` already exists (unique composite
key); else insert a row whose rating/comment copy the dto, stamped with the
current time `now`. -/
def create (db : DB) (userId : Nat) (dto : CreateReviewDto) (now : Nat) :
    (Except ApiError Review) × DB :=
  match db.albums.find? (fun al => al.id == dto.albumId) with
  | none => (.error .notFound, db)
  | some _ =>
    match db.reviews.find? (fun r => r.userId == userId && r.albumId == dto.albumId) with
    | some _ => (.error .conflict, db)
    | none =>
      let r : Review := ⟨db.nextReviewId, userId, dto.albumId, dto.rating, dto.comment, now⟩
      (.ok r, { db with reviews := db.reviews ++ [r], nextReviewId := db.nextReviewId + 1 })

/-- Partial update semantics of Prisma for `UpdateReviewDto`: an absent field
leaves the column unchanged. -/
def applyReviewPatch (r : Review) (patch : UpdateReviewDto) : Review :=
  { r with
    rating := patch.rating.getD r.rating
    comment := match patch.comment with
      | some c => some c
      | none => r.comment }

/-- Embeds `ReviewsService.update`: 404 if the review is absent; 403 if the caller
is not its author; else apply the partial patch via `prisma.review.update`. -/
def update (db : DB) (id userId : Nat) (patch : UpdateReviewDto) :
    (Except ApiError Review) × DB :=
  match db.reviews.find? (fun r => r.id == id) with
  | none => (.error .notFound, db)
  | some review =>
    if review.userId != userId then
      (.error .forbidden, db)
    else
      (.ok (applyReviewPatch review patch),
       { db with reviews := db.reviews.map (fun r =>
           if r.id == id then applyReviewPatch r patch else r) })

/-- Embeds `ReviewsService.remove`: same existence/ownership checks as `update`,
then `prisma.review.delete` (which returns the deleted row). -/
def remove (db : DB) (id userId : Nat) : (Except ApiError Review) × DB :=
  match db.reviews.find? (fun r => r.id == id) with
  | none => (.error .notFound, db)
  | some review =>
    if review.userId != userId then
      (.error .forbidden, db)
    else
      (.ok review, { db with reviews := db.reviews.filter (fun r => !(r.id == id)) })

/-- Pagination metadata returned by the list endpoints. -/
structure PageMeta where
  total : Nat
  skip : Nat
  take : Nat
  hasMore : Bool
  deriving Repr, DecidableEq

/-- Embeds `{reviews, meta}` shape returned by the list endpoints. -/
structure ReviewPage where
  reviews : List Review
  meta : PageMeta
  deriving Repr, DecidableEq

/-- Ordering `orderBy createdAt desc`: newest first. -/
def byCreatedAtDesc (a b : Review) : Prop := b.createdAt ≤ a.createdAt

instance : DecidableRel byCreatedAtDesc := fun a b =>
  inferInstanceAs (Decidable (b.createdAt ≤ a.createdAt))

/-- The rows of `prisma.review.findMany({where, skip, take, orderBy:
createdAt desc`): the matching rows ordered newest-first, then the
`skip`/`take` window. -/
def findManyWindow (rows : List Review) (skip take : Nat) : List Review :=
  ((rows.insertionSort byCreatedAtDesc).drop skip).take take

/-- Embeds `ReviewsService.findAll`: all reviews paginated, with
`hasMore = skip + take < total`. -/
def findAll (db : DB) (skip take : Nat) : ReviewPage :=
  let total := db.reviews.length
  ⟨findManyWindow db.reviews skip take,
   ⟨total, skip, take, decide (skip + take < total)⟩⟩

/-- Embeds `ReviewsService.findByAlbumId`: 404 if the album is absent, else the
reviews of the album, paginated. -/
def findByAlbumId (db : DB) (albumId skip take : Nat) : Except ApiError ReviewPage :=
  match db.albums.find? (fun al => al.id == albumId) with
  | none => .error .notFound
  | some _ =>
    let rows := db.reviews.filter (fun r => r.albumId == albumId)
    .ok ⟨findManyWindow rows skip take,
         ⟨rows.length, skip, take, decide (skip + take < rows.length)⟩⟩

/-- Embeds `ReviewsService.findByUserId`: 404 if the user is absent, else the
reviews of the user, paginated. -/
def findByUserId (db : DB) (userId skip take : Nat) : Except ApiError ReviewPage :=
  match db.users.find? (fun u => u.id == userId) with
  | none => .error .notFound
  | some _ =>
    let rows := db.reviews.filter (fun r => r.userId == userId)
    .ok ⟨findManyWindow rows skip take,
         ⟨rows.length, skip, take, decide (skip + take < rows.length)⟩⟩

end ReviewsService

namespace MusicApiService

/-- ASCII lower-casing of one character (the album types the filter compares
are plain ASCII, so this is `String.prototype.toLowerCase` on them). -/
def lowerChar (c : Char) : Char :=
  if 64 < c.toNat ∧ c.toNat < 91 then Char.ofNat (c.toNat + 32) else c

/-- ASCII lower-casing of a string, modelling `toLowerCase()`. -/
def lowerString (s : String) : String := String.mk (s.data.map lowerChar)

/-- An item of the raw Spotify `/search?type=album` response (the fields the
service reads).  `none` models a JSON field that is absent/undefined. -/
structure RawAlbum where
  id : String
  name : String
  release_date : Option String
  imageUrl : Option String
  artistName : Option String
  artistId : Option String
  album_type : Option String
  total_tracks : Option Nat
  deriving Repr, DecidableEq

/-- The formatted record `searchAlbums` returns for each kept item. -/
structure AlbumSearchResult where
  externalId : String
  title : String
  releaseDate : Option String
  coverUrl : Option String
  artistName : Option String
  artistExternalId : Option String
  albumType : Option String
  totalTracks : Option Nat
  deriving Repr, DecidableEq

/-- Body of the post-filter callback of `searchAlbums`, including its in-place
rewrite of `album.album_type` to `ep`: `none` means the entry is dropped,
`some b` that it is kept as `b`.  Mirrors the TS line by line: the album/ep
tests use the lower-cased type (`album.album_type` lower-cased when present,
defaulting to the empty string, written here as `albumType` once per test), the
single test compares the raw `album.album_type` with `single`; a single is
kept (as an ep) when `total_tracks` is undefined or `>= 2`, and every other
entry falls through to `return false`. -/
def filterStep (album : RawAlbum) : Option RawAlbum :=
  if (album.album_type.map lowerString).getD ("") = "album" then
    some album
  else if (album.album_type.map lowerString).getD ("") = "ep" then
    some album
  else if album.album_type = some ("single") then
    match album.total_tracks with
    | none => some { album with album_type := some ("ep") }
    | some t => if 2 ≤ t then some { album with album_type := some ("ep") } else none
  else
    none

/-- Embeds `filteredItems`: the post-filter applied to the response items. -/
def searchAlbumsPostFilter (items : List RawAlbum) : List RawAlbum :=
  items.filterMap filterStep

/-- Final mapping of a kept item to the result shape of the API; note
`total_tracks || null` turns a (falsy) 0 into null. -/
def formatSearchAlbum (album : RawAlbum) : AlbumSearchResult :=
  { externalId := album.id
    title := album.name
    releaseDate := album.release_date
    coverUrl := album.imageUrl
    artistName := album.artistName
    artistExternalId := album.artistId
    albumType := album.album_type.map lowerString
    totalTracks := match album.total_tracks with
      | some 0 => none
      | tt => tt }

/-- Embeds `searchAlbums` from the response items on: post-filter, truncate to the
requested `limit`, format. -/
def searchAlbumsProcess (items : List RawAlbum) (limit : Nat) : List AlbumSearchResult :=
  ((searchAlbumsPostFilter items).take limit).map formatSearchAlbum

/-- A track item of the raw Spotify album-details response. -/
structure RawTrack where
  name : String
  duration_ms : Nat
  track_number : Nat
  deriving Repr, DecidableEq

/-- A track of the formatted album-details record. -/
structure TrackRecord where
  name : String
  duration : Nat
  trackNumber : Nat
  deriving Repr, DecidableEq

/-- The raw Spotify `/albums/{id}` response body (the fields the service
reads).  An `id` of `""` models the falsy `album.id` the validity check
guards against. -/
structure RawAlbumDetails where
  id : String
  name : String
  release_date : Option String
  imageUrl : Option String
  artistName : Option String
  artistId : Option String
  tracks : Option (List RawTrack)
  deriving Repr, DecidableEq

/-- The formatted record `getAlbumDetails` builds from a raw response. -/
structure AlbumDetails where
  externalId : String
  title : String
  releaseDate : Option String
  coverUrl : Option String
  artistName : Option String
  artistExternalId : Option String
  tracks : Option (List TrackRecord)
  deriving Repr, DecidableEq

/-- Formatting of a raw album-details body. -/
def formatAlbumDetails (album : RawAlbumDetails) : AlbumDetails :=
  { externalId := album.id
    title := album.name
    releaseDate := album.release_date
    coverUrl := album.imageUrl
    artistName := album.artistName
    artistExternalId := album.artistId
    tracks := album.tracks.map (List.map fun t => ⟨t.name, t.duration_ms, t.track_number⟩) }

/-- Outcome of one HTTP `GET /albums/...` call: a body, a 404, or any other
failure (which the service maps to `InternalServerErrorException`). -/
inductive FetchResult where
  | success (album : RawAlbumDetails)
  | notFound404
  | otherError
  deriving Repr, DecidableEq

/-- What `getAlbumDetails` returns: a formatted details record (direct lookup
or URL-encoded retry) or a search result (the exact-match fallback). -/
inductive AlbumLookupResult where
  | detail (d : AlbumDetails)
  | fromSearch (s : AlbumSearchResult)
  deriving Repr, DecidableEq

/-- Embeds `MusicApiService.getAlbumDetails`.  The HTTP collaborators are oracles:
`fetchAlbum id` is `GET /albums/{id}` on the trimmed id, `fetchAlbumEncoded
id` is the same endpoint on `encodeURIComponent(id)`, and `search id` is
`this.searchAlbums(id, 5)`.  Direct lookup first (404 becomes
`NotFoundException`, other failures or a falsy `album.id` become
`InternalServerErrorException`); on `NotFoundException` only, fall back to a
search matched for exact `externalId` equality, then — only when the search
returned at least one item — to the URL-encoded retry; when no fallback
yields a record the original `NotFoundException` is rethrown (errors of the
fallbacks themselves are swallowed). -/
def getAlbumDetails (fetchAlbum : String → FetchResult)
    (fetchAlbumEncoded : String → FetchResult)
    (search : String → Except ApiError (List AlbumSearchResult))
    (externalId : String) : Except ApiError AlbumLookupResult :=
  let cleanExternalId := externalId.trim
  let direct : Except ApiError AlbumLookupResult :=
    match fetchAlbum cleanExternalId with
    | .notFound404 => .error .notFound
    | .otherError => .error .internalError
    | .success album =>
      if album.id = "" then .error .internalError
      else .ok (.detail (formatAlbumDetails album))
  match direct with
  | .ok r => .ok r
  | .error .notFound =>
    match search externalId with
    | .error _ => .error .notFound
    | .ok searchResults =>
      if searchResults.length > 0 then
        match searchResults.find? (fun album => album.externalId == externalId) with
        | some exactMatch => .ok (.fromSearch exactMatch)
        | none =>
          match fetchAlbumEncoded externalId with
          | .success altAlbum => .ok (.detail (formatAlbumDetails altAlbum))
          | _ => .error .notFound
      else
        .error .notFound
  | .error e => .error e

end MusicApiService

/-!
Concrete fixtures used to instantiate the theorems below (mirroring the mock
rows of the unit tests: user `testuser`, artist `artist123`, album
`album123`). -/

/-- Sample user row. -/
def sampleUser : User := ⟨1, "testuser", "test@example.com", "hash", 0⟩

/-- A second sample user row (a non-author). -/
def sampleUser2 : User := ⟨2, "other", "other@example.com", "hash2", 0⟩

/-- Sample artist row. -/
def sampleArtist : Artist := ⟨1, "artist123", "Test Artist", some ("img")⟩

/-- A second sample artist row, owning no album rows. -/
def sampleArtist2 : Artist := ⟨2, "artist456", "Other Artist", none⟩

/-- Sample album row, owned by `sampleArtist`. -/
def sampleAlbum : Album := ⟨1, "album123", "Test Album", some ("2020-01-01"), none, 1⟩

/-- A second sample album row, owned by `sampleArtist`, with no reviews. -/
def sampleAlbum2 : Album := ⟨2, "album456", "Second Album", none, none, 1⟩

/-- Sample review row: user 1 rated album 1 with 5. -/
def sampleReview : Review := ⟨1, 1, 1, 5, some ("Great album!"), 10⟩

/-- A second sample review row: user 2 rated album 1 with 4. -/
def sampleReview2 : Review := ⟨2, 2, 1, 4, none, 20⟩

/-- A small populated store. -/
def sampleDB : DB :=
  ⟨[sampleUser, sampleUser2], [sampleArtist, sampleArtist2], [sampleAlbum, sampleAlbum2],
   [sampleReview, sampleReview2], 3, 3, 3⟩

/-- An empty store. -/
def emptyDB : DB := ⟨[], [], [], [], 1, 1, 1⟩

/-- A deterministic catalog oracle for artist details. -/
def sampleArtistCatalog : String → Except ApiError ArtistDetails :=
  fun externalId => .ok ⟨externalId, "Some Artist", none, none, []⟩

/-- A deterministic catalog oracle for the album list of an artist. -/
def sampleAlbumListCatalog : String → Except ApiError (List ArtistAlbumRecord) :=
  fun externalId => .ok [⟨externalId ++ "-alb", "An Album", none, none, some ("album")⟩]

/-- A raw search entry of type album. -/
def rawAlbumItem : MusicApiService.RawAlbum :=
  ⟨"a1", "Full Album", none, none, none, none, some ("album"), some 10⟩

/-- A raw search entry of type single with exactly one track. -/
def rawSingle1 : MusicApiService.RawAlbum :=
  ⟨"s1", "One Track Single", none, none, none, none, some ("single"), some 1⟩

/-- A raw search entry of type single with two tracks. -/
def rawSingle2 : MusicApiService.RawAlbum :=
  ⟨"s2", "Two Track Single", none, none, none, none, some ("single"), some 2⟩

/-- A raw search entry of type compilation. -/
def rawCompilation : MusicApiService.RawAlbum :=
  ⟨"c1", "A Compilation", none, none, none, none, some ("compilation"), some 12⟩

/-- A raw album-details body used as the response of the URL-encoded retry. -/
def rawAltAlbum : MusicApiService.RawAlbumDetails :=
  ⟨"alt1", "Alt Album", none, none, none, none, none⟩

/-- A search record matching nothing (external id `other`). -/
def otherSearchHit : MusicApiService.AlbumSearchResult :=
  ⟨"other", "Other", none, none, none, none, some ("album"), none⟩

/-- A search record with external id `alt1`. -/
def altSearchHit : MusicApiService.AlbumSearchResult :=
  ⟨"alt1", "Found", none, none, none, none, some ("album"), none⟩

/-!
The claims, settled.
-/

/-- **C3** Review creation fails NotFound when no album with the given
albumId exists locally; fails Conflict when a review row with the same
(userId, albumId) pair already exists; and otherwise inserts a row whose
rating and comment equal the input, so a second creation for the same
(userId, albumId) after a successful first one fails Conflict. -/
theorem review_create_spec (db : DB) (userId : Nat) (dto dto2 : CreateReviewDto)
    (now now2 : Nat) :
    (db.albums.find? (fun al => al.id == dto.albumId) = none →
      ReviewsService.create db userId dto now = (.error .notFound, db)) ∧
    (∀ al r0, db.albums.find? (fun al => al.id == dto.albumId) = some al →
      db.reviews.find? (fun r => r.userId == userId && r.albumId == dto.albumId) = some r0 →
      ReviewsService.create db userId dto now = (.error .conflict, db)) ∧
    (∀ al, db.albums.find? (fun al => al.id == dto.albumId) = some al →
      db.reviews.find? (fun r => r.userId == userId && r.albumId == dto.albumId) = none →
      ReviewsService.create db userId dto now =
        (.ok ⟨db.nextReviewId, userId, dto.albumId, dto.rating, dto.comment, now⟩,
         { db with
            reviews := db.reviews ++ [⟨db.nextReviewId, userId, dto.albumId, dto.rating, dto.comment, now⟩],
            nextReviewId := db.nextReviewId + 1 }) ∧
      (dto2.albumId = dto.albumId →
        (ReviewsService.create
          { db with
            reviews := db.reviews ++ [⟨db.nextReviewId, userId, dto.albumId, dto.rating, dto.comment, now⟩],
            nextReviewId := db.nextReviewId + 1 }
          userId dto2 now2).1 = .error .conflict)) := by
  refine ⟨?_, ?_, ?_⟩
  · intro h
    simp [ReviewsService.create, h]
  · intro al r0 h1 h2
    simp [ReviewsService.create, h1, h2]
  · intro al h1 h2
    constructor
    · simp [ReviewsService.create, h1, h2]
    · intro hsame
      simp [ReviewsService.create, hsame, h1, List.find?_append, h2]

/-- Witness for C3 at the sample store. -/
theorem review_create_spec_witness :
    ReviewsService.create sampleDB 1 ⟨1, 3, none⟩ 30 = (.error .conflict, sampleDB) ∧
    ReviewsService.create sampleDB 1 ⟨2, 3, none⟩ 30 =
      (.ok ⟨sampleDB.nextReviewId, 1, 2, 3, none, 30⟩,
       { sampleDB with
          reviews := sampleDB.reviews ++ [⟨sampleDB.nextReviewId, 1, 2, 3, none, 30⟩],
          nextReviewId := sampleDB.nextReviewId + 1 }) ∧
    (ReviewsService.create
      { sampleDB with
          reviews := sampleDB.reviews ++ [⟨sampleDB.nextReviewId, 1, 2, 3, none, 30⟩],
          nextReviewId := sampleDB.nextReviewId + 1 }
      1 ⟨2, 4, none⟩ 31).1 = .error .conflict := by
  refine ⟨?_, ?_, ?_⟩
  · exact (review_create_spec sampleDB 1 ⟨1, 3, none⟩ ⟨2, 4, none⟩ 30 31).2.1
      sampleAlbum sampleReview (by decide) (by decide)
  · exact ((review_create_spec sampleDB 1 ⟨2, 3, none⟩ ⟨2, 4, none⟩ 30 31).2.2
      sampleAlbum2 (by decide) (by decide)).1
  · exact ((review_create_spec sampleDB 1 ⟨2, 3, none⟩ ⟨2, 4, none⟩ 30 31).2.2
      sampleAlbum2 (by decide) (by decide)).2 (by decide)

/-- **C4** For every update or remove call on a review: if no review with the
given id exists the call fails NotFound; if the review exists but its userId
differs from the acting userId the call fails Forbidden and the review row is
unchanged (the store is untouched); otherwise update applies only the given
partial patch (rating and/or comment) and remove deletes the row. -/
theorem review_update_remove_spec (db : DB) (id userId : Nat) (patch : UpdateReviewDto) :
    (db.reviews.find? (fun r => r.id == id) = none →
      ReviewsService.update db id userId patch = (.error .notFound, db) ∧
      ReviewsService.remove db id userId = (.error .notFound, db)) ∧
    (∀ review, db.reviews.find? (fun r => r.id == id) = some review →
      review.userId ≠ userId →
      ReviewsService.update db id userId patch = (.error .forbidden, db) ∧
      ReviewsService.remove db id userId = (.error .forbidden, db)) ∧
    (∀ review, db.reviews.find? (fun r => r.id == id) = some review →
      review.userId = userId →
      (ReviewsService.update db id userId patch =
        (.ok (ReviewsService.applyReviewPatch review patch),
         { db with reviews := db.reviews.map (fun r =>
             if r.id == id then ReviewsService.applyReviewPatch r patch else r) }) ∧
       (ReviewsService.applyReviewPatch review patch).id = review.id ∧
       (ReviewsService.applyReviewPatch review patch).userId = review.userId ∧
       (ReviewsService.applyReviewPatch review patch).albumId = review.albumId ∧
       (ReviewsService.applyReviewPatch review patch).createdAt = review.createdAt ∧
       (ReviewsService.applyReviewPatch review patch).rating = patch.rating.getD review.rating ∧
       (ReviewsService.applyReviewPatch review patch).comment =
         (match patch.comment with | some c => some c | none => review.comment)) ∧
      (ReviewsService.remove db id userId =
        (.ok review, { db with reviews := db.reviews.filter (fun r => !(r.id == id)) }) ∧
       (ReviewsService.remove db id userId).2.reviews.find? (fun r => r.id == id) = none)) := by
  refine ⟨?_, ?_, ?_⟩
  · intro h
    exact ⟨by simp [ReviewsService.update, h], by simp [ReviewsService.remove, h]⟩
  · intro review h hne
    have hb : (review.userId != userId) = true := by simpa using hne
    exact ⟨by simp [ReviewsService.update, h, hb], by simp [ReviewsService.remove, h, hb]⟩
  · intro review h heq
    refine ⟨⟨by simp [ReviewsService.update, h, heq], ?_, ?_, ?_, ?_, ?_, ?_⟩, ?_, ?_⟩
    · simp [ReviewsService.applyReviewPatch]
    · simp [ReviewsService.applyReviewPatch]
    · simp [ReviewsService.applyReviewPatch]
    · simp [ReviewsService.applyReviewPatch]
    · simp [ReviewsService.applyReviewPatch]
    · simp [ReviewsService.applyReviewPatch]
    · simp [ReviewsService.remove, h, heq]
    · rw [show (ReviewsService.remove db id userId).2.reviews
            = db.reviews.filter (fun r => !(r.id == id)) by simp [ReviewsService.remove, h, heq]]
      rw [List.find?_eq_none]
      intro x hx
      have := (List.mem_filter.mp hx).2
      simpa using this

/-- Witness for C4 at the sample store: a non-author update is Forbidden with
the store untouched; the author may update and remove. -/
theorem review_update_remove_spec_witness :
    ReviewsService.update sampleDB 1 2 ⟨some 4, none⟩ = (.error .forbidden, sampleDB) ∧
    ReviewsService.remove sampleDB 1 2 = (.error .forbidden, sampleDB) ∧
    ReviewsService.update sampleDB 1 1 ⟨some 4, none⟩ =
      (.ok (ReviewsService.applyReviewPatch sampleReview ⟨some 4, none⟩),
       { sampleDB with reviews := sampleDB.reviews.map (fun r =>
           if r.id == 1 then ReviewsService.applyReviewPatch r ⟨some 4, none⟩ else r) }) ∧
    ReviewsService.remove sampleDB 1 1 =
      (.ok sampleReview, { sampleDB with reviews := sampleDB.reviews.filter (fun r => !(r.id == 1)) }) := by
  refine ⟨?_, ?_, ?_, ?_⟩
  · exact ((review_update_remove_spec sampleDB 1 2 ⟨some 4, none⟩).2.1
      sampleReview (by decide) (by decide)).1
  · exact ((review_update_remove_spec sampleDB 1 2 ⟨some 4, none⟩).2.1
      sampleReview (by decide) (by decide)).2
  · exact (((review_update_remove_spec sampleDB 1 1 ⟨some 4, none⟩).2.2
      sampleReview (by decide) (by decide)).1).1
  · exact (((review_update_remove_spec sampleDB 1 1 ⟨some 4, none⟩).2.2
      sampleReview (by decide) (by decide)).2).1

/-- Helper: the fold the service uses to total the ratings equals the sum of
the mapped ratings. -/
theorem foldl_rating_eq_sum (l : List Review) (init : Int) :
    l.foldl (fun sum r => sum + r.rating) init = init + (l.map Review.rating).sum := by
  induction l generalizing init with
  | nil => simp
  | cons hd tl ih => simp [List.foldl_cons, ih, add_assoc]

/-- **C5** For every album id, getRating returns averageRating 0 and
reviewCount 0 when the album has zero review rows, and otherwise returns
reviewCount equal to the number of review rows for the album and
averageRating equal to the exact arithmetic mean of their ratings. -/
theorem album_rating_spec (db : DB) (id : Nat) :
    ((db.reviews.filter (fun r => r.albumId == id)).length = 0 →
      AlbumsService.getAlbumRating db id = ⟨0, 0⟩) ∧
    (∀ n, (db.reviews.filter (fun r => r.albumId == id)).length = n → 0 < n →
      (AlbumsService.getAlbumRating db id).reviewCount = n ∧
      (AlbumsService.getAlbumRating db id).averageRating =
        ((((db.reviews.filter (fun r => r.albumId == id)).map Review.rating).sum : ℚ) / (n : ℚ))) := by
  constructor
  · intro h
    simp [AlbumsService.getAlbumRating, h]
  · intro n hn hpos
    have hne : (db.reviews.filter (fun r => r.albumId == id)).length ≠ 0 := by omega
    have hn0 : n ≠ 0 := by omega
    constructor
    · simp [AlbumsService.getAlbumRating, hne, hn, hn0]
    · simp [AlbumsService.getAlbumRating, hne, hn, hn0, foldl_rating_eq_sum]

/-- Witness for C5: album 2 of the sample store has no reviews; album 1 has
two, rated 5 and 4. -/
theorem album_rating_spec_witness :
    AlbumsService.getAlbumRating sampleDB 2 = ⟨0, 0⟩ ∧
    (AlbumsService.getAlbumRating sampleDB 1).reviewCount = 2 ∧
    (AlbumsService.getAlbumRating sampleDB 1).averageRating =
      ((((sampleDB.reviews.filter (fun r => r.albumId == 1)).map Review.rating).sum : ℚ) / (2 : ℚ)) := by
  refine ⟨?_, ?_, ?_⟩
  · exact (album_rating_spec sampleDB 2).1 (by decide)
  · exact ((album_rating_spec sampleDB 1).2 2 (by decide) (by decide)).1
  · exact ((album_rating_spec sampleDB 1).2 2 (by decide) (by decide)).2

/-- **C6** getArtistAlbums(artistId) returns the locally stored album rows
for that artist whenever at least one exists; when none exist it returns the
catalog client records for the external id of the artist; and in every case
it leaves the local store unchanged (no album row is created). -/
theorem artist_albums_spec (db : DB)
    (catalog : String → Except ApiError (List ArtistAlbumRecord)) (artistId : Nat) :
    (ArtistsService.getArtistAlbums db catalog artistId).2 = db ∧
    (∀ artist, db.artists.find? (fun a => a.id == artistId) = some artist →
      ((db.albums.filter (fun al => al.artistId == artistId)).length > 0 →
        (ArtistsService.getArtistAlbums db catalog artistId).1 =
          .ok (.stored (db.albums.filter (fun al => al.artistId == artistId)))) ∧
      (db.albums.filter (fun al => al.artistId == artistId) = [] →
        ∀ records, catalog artist.externalId = .ok records →
          (ArtistsService.getArtistAlbums db catalog artistId).1 =
            .ok (.catalog records))) := by
  constructor
  · unfold ArtistsService.getArtistAlbums
    cases hfind : db.artists.find? (fun a => a.id == artistId) with
    | none => rfl
    | some artist =>
      simp only []
      split
      · rfl
      · cases catalog artist.externalId <;> rfl
  · intro artist hfind
    constructor
    · intro hlen
      simp [ArtistsService.getArtistAlbums, hfind, hlen]
    · intro hempty records hcat
      simp [ArtistsService.getArtistAlbums, hfind, hempty, hcat]

/-- Witness for C6: in the sample store artist 1 owns two album rows and
artist 2 owns none. -/
theorem artist_albums_spec_witness :
    (ArtistsService.getArtistAlbums sampleDB sampleAlbumListCatalog 2).2 = sampleDB ∧
    (ArtistsService.getArtistAlbums sampleDB sampleAlbumListCatalog 1).1 =
      .ok (.stored (sampleDB.albums.filter (fun al => al.artistId == 1))) ∧
    (ArtistsService.getArtistAlbums sampleDB sampleAlbumListCatalog 2).1 =
      .ok (.catalog [⟨"artist456" ++ "-alb", "An Album", none, none, some ("album")⟩]) := by
  refine ⟨?_, ?_, ?_⟩
  · exact (artist_albums_spec sampleDB sampleAlbumListCatalog 2).1
  · exact (((artist_albums_spec sampleDB sampleAlbumListCatalog 1).2
      sampleArtist (by decide)).1) (by decide)
  · exact (((artist_albums_spec sampleDB sampleAlbumListCatalog 2).2
      sampleArtist2 (by decide)).2) (by decide)
      [⟨"artist456" ++ "-alb", "An Album", none, none, some ("album")⟩] (by rfl)

/-- Helper: every entry the post-filter keeps has a lower-cased album type of
album or ep. -/
theorem filterStep_kept_type {a b : MusicApiService.RawAlbum}
    (h : MusicApiService.filterStep a = some b) :
    b.album_type.map MusicApiService.lowerString = some ("album") ∨
    b.album_type.map MusicApiService.lowerString = some ("ep") := by
  unfold MusicApiService.filterStep at h
  split at h
  · next h1 =>
    obtain rfl : a = b := Option.some.inj h
    cases heq : a.album_type with
    | none => rw [heq] at h1; simp at h1
    | some s => rw [heq] at h1; simp at h1 ⊢; left; exact h1
  · split at h
    · next h1 h2 =>
      obtain rfl : a = b := Option.some.inj h
      cases heq : a.album_type with
      | none => rw [heq] at h2; simp at h2
      | some s => rw [heq] at h2; simp at h2 ⊢; right; exact h2
    · split at h
      · cases htt : a.total_tracks with
        | none =>
          rw [htt] at h
          obtain rfl := Option.some.inj h
          right; simp; decide
        | some t =>
          rw [htt] at h
          dsimp only [] at h
          by_cases hk : 2 ≤ t
          · rw [if_pos hk] at h
            obtain rfl := Option.some.inj h
            right; simp; decide
          · rw [if_neg hk] at h
            exact absurd h (by simp)
      · exact absurd h (by simp)

/-- **C2** For every list of catalog entries given to searchAlbums, the
post-filter keeps every entry of type album or ep unchanged; an entry of type
single with track count at least 2 or with undefined track count is kept with
its album type rewritten to ep; and an entry of type single with track count
exactly 1 is excluded from the output. -/
theorem search_albums_postfilter_spec :
    (∀ a : MusicApiService.RawAlbum,
      a.album_type = some ("album") ∨ a.album_type = some ("ep") →
      MusicApiService.filterStep a = some a) ∧
    (∀ a : MusicApiService.RawAlbum, a.album_type = some ("single") →
      ((a.total_tracks = none ∨ (∃ t, a.total_tracks = some t ∧ 2 ≤ t)) →
        MusicApiService.filterStep a = some { a with album_type := some ("ep") }) ∧
      (a.total_tracks = some 1 → MusicApiService.filterStep a = none)) ∧
    (∀ (l : List MusicApiService.RawAlbum) (a : MusicApiService.RawAlbum),
      a.album_type = some ("single") → a.total_tracks = some 1 →
      a ∉ MusicApiService.searchAlbumsPostFilter l) := by
  refine ⟨?_, ?_, ?_⟩
  · intro a h
    rcases h with h | h
    · unfold MusicApiService.filterStep
      rw [h, if_pos (show ((some ("album")).map MusicApiService.lowerString).getD ("")
          = "album" by decide)]
    · unfold MusicApiService.filterStep
      rw [h, if_neg (show ¬ ((some ("ep")).map MusicApiService.lowerString).getD ("")
            = "album" by decide),
          if_pos (show ((some ("ep")).map MusicApiService.lowerString).getD ("")
            = "ep" by decide)]
  · intro a h
    constructor
    · intro htt
      unfold MusicApiService.filterStep
      rw [h, if_neg (by decide), if_neg (by decide), if_pos rfl]
      rcases htt with htt | ⟨t, htt, hge⟩
      · rw [htt]
      · rw [htt]
        dsimp only []
        rw [if_pos hge]
    · intro h1
      unfold MusicApiService.filterStep
      rw [h, h1, if_neg (by decide), if_neg (by decide), if_pos rfl]
      rfl
  · intro l a h1 h2 hmem
    obtain ⟨x, _, hxa⟩ := List.mem_filterMap.mp hmem
    have hk := filterStep_kept_type hxa
    rw [h1] at hk
    exact absurd hk (by decide)

/-- Witness for C2 on concrete entries: an album passes unchanged, a
two-track single becomes an ep, a one-track single is dropped and never
appears in the filtered list. -/
theorem search_albums_postfilter_spec_witness :
    MusicApiService.filterStep rawAlbumItem = some rawAlbumItem ∧
    MusicApiService.filterStep rawSingle2 = some { rawSingle2 with album_type := some ("ep") } ∧
    MusicApiService.filterStep rawSingle1 = none ∧
    rawSingle1 ∉ MusicApiService.searchAlbumsPostFilter [rawAlbumItem, rawSingle1, rawSingle2] := by
  refine ⟨?_, ?_, ?_, ?_⟩
  · exact search_albums_postfilter_spec.1 rawAlbumItem (Or.inl (by rfl))
  · exact (search_albums_postfilter_spec.2.1 rawSingle2 (by rfl)).1
      (Or.inr ⟨2, by rfl, by norm_num⟩)
  · exact (search_albums_postfilter_spec.2.1 rawSingle1 (by rfl)).2 (by rfl)
  · exact search_albums_postfilter_spec.2.2 [rawAlbumItem, rawSingle1, rawSingle2]
      rawSingle1 (by rfl) (by rfl)

/-- **C10** searchAlbums excludes every catalog entry whose album type
(case-insensitively) is neither album, ep, nor single — for example entries
of type compilation never appear in the output, for any input list: such an
entry is dropped by the post-filter, and every formatted output record has
album type album or ep. -/
theorem search_albums_unknown_type_excluded :
    (∀ a : MusicApiService.RawAlbum,
      (a.album_type.map MusicApiService.lowerString).getD ("")
        ∉ (["album", "ep", "single"] : List String) →
      MusicApiService.filterStep a = none ∧
      ∀ l : List MusicApiService.RawAlbum, a ∉ MusicApiService.searchAlbumsPostFilter l) ∧
    (∀ (l : List MusicApiService.RawAlbum) (limit : Nat) (b : MusicApiService.AlbumSearchResult),
      b ∈ MusicApiService.searchAlbumsProcess l limit →
      b.albumType = some ("album") ∨ b.albumType = some ("ep")) := by
  constructor
  · intro a h
    have hc1 : ¬ (a.album_type.map MusicApiService.lowerString).getD ("") = "album" :=
      fun he => h (by rw [he]; decide)
    have hc2 : ¬ (a.album_type.map MusicApiService.lowerString).getD ("") = "ep" :=
      fun he => h (by rw [he]; decide)
    have hc3 : ¬ a.album_type = some ("single") := by
      intro he
      exact h (by rw [he]; decide)
    constructor
    · unfold MusicApiService.filterStep
      rw [if_neg hc1, if_neg hc2, if_neg hc3]
    · intro l hmem
      obtain ⟨x, _, hxa⟩ := List.mem_filterMap.mp hmem
      rcases filterStep_kept_type hxa with hk | hk
      · exact h (by rw [hk]; decide)
      · exact h (by rw [hk]; decide)
  · intro l limit b hb
    obtain ⟨c, hc, rfl⟩ := List.mem_map.mp hb
    have hc2 : c ∈ MusicApiService.searchAlbumsPostFilter l := List.take_subset _ _ hc
    obtain ⟨x, _, hxc⟩ := List.mem_filterMap.mp hc2
    have hfmt : (MusicApiService.formatSearchAlbum c).albumType
        = c.album_type.map MusicApiService.lowerString := rfl
    rw [hfmt]
    exact filterStep_kept_type hxc

/-- Witness for C10: a compilation entry is dropped and absent from the
filtered list, and a formatted output record of the processed list has album
type album. -/
theorem search_albums_unknown_type_excluded_witness :
    MusicApiService.filterStep rawCompilation = none ∧
    rawCompilation ∉ MusicApiService.searchAlbumsPostFilter [rawAlbumItem, rawCompilation] ∧
    ((MusicApiService.formatSearchAlbum rawAlbumItem).albumType = some ("album") ∨
     (MusicApiService.formatSearchAlbum rawAlbumItem).albumType = some ("ep")) := by
  refine ⟨?_, ?_, ?_⟩
  · exact (search_albums_unknown_type_excluded.1 rawCompilation (by decide)).1
  · exact (search_albums_unknown_type_excluded.1 rawCompilation (by decide)).2
      [rawAlbumItem, rawCompilation]
  · exact search_albums_unknown_type_excluded.2 [rawAlbumItem, rawCompilation, rawSingle2] 10
      (MusicApiService.formatSearchAlbum rawAlbumItem) (by decide)

/-- **C7** When the store insert inside artist or album creation raises a
unique-constraint violation (code P2002), the creation operation raises
Conflict rather than propagating the store error; all other store errors
propagate unchanged; and before inserting, create re-checks existence by
externalId and returns the existing row when one is found. -/
theorem create_conflict_translation_spec (db : DB) :
    (∀ (dto : CreateArtistDto) (e : StoreError),
      db.artists.find? (fun a => a.externalId == dto.externalId) = none →
      (e.code = "P2002" → ArtistsService.create db dto (some e) = .error .conflict) ∧
      (e.code ≠ "P2002" → ArtistsService.create db dto (some e) = .error (.store e))) ∧
    (∀ (dto : CreateArtistDto) (interference : Option StoreError) (existing : Artist),
      db.artists.find? (fun a => a.externalId == dto.externalId) = some existing →
      ArtistsService.create db dto interference = .ok (existing, db)) ∧
    (∀ (dto : CreateAlbumDto) (oracle : String → Except ApiError ArtistDetails)
       (aItf : Option StoreError) (e : StoreError) (artist : Artist),
      db.albums.find? (fun al => al.externalId == dto.externalId) = none →
      db.artists.find? (fun a => a.externalId == dto.artistExternalId) = some artist →
      (e.code = "P2002" → AlbumsService.create db dto oracle aItf (some e) = .error .conflict) ∧
      (e.code ≠ "P2002" → AlbumsService.create db dto oracle aItf (some e) = .error (.store e))) ∧
    (∀ (dto : CreateAlbumDto) (oracle : String → Except ApiError ArtistDetails)
       (aItf bItf : Option StoreError) (existing : Album),
      db.albums.find? (fun al => al.externalId == dto.externalId) = some existing →
      AlbumsService.create db dto oracle aItf bItf = .ok (existing, db)) := by
  refine ⟨?_, ?_, ?_, ?_⟩
  · intro dto e hfind
    constructor
    · intro hcode
      have hb : (e.code == "P2002") = true := by simp [hcode]
      simp [ArtistsService.create, prismaArtistCreate, hfind, hb]
    · intro hcode
      have hb : (e.code == "P2002") = false := by simp [hcode]
      simp [ArtistsService.create, prismaArtistCreate, hfind, hb]
  · intro dto interference existing hfind
    simp [ArtistsService.create, hfind]
  · intro dto oracle aItf e artist hfinda hfindart
    constructor
    · intro hcode
      have hb : (e.code == "P2002") = true := by simp [hcode]
      simp [AlbumsService.create, prismaAlbumCreate, hfinda, hfindart, hb]
    · intro hcode
      have hb : (e.code == "P2002") = false := by simp [hcode]
      simp [AlbumsService.create, prismaAlbumCreate, hfinda, hfindart, hb]
  · intro dto oracle aItf bItf existing hfind
    simp [AlbumsService.create, hfind]

/-- Witness for C7 at the sample store: an injected P2002 insert failure
surfaces as Conflict, an injected other store error propagates, and an
existing externalId short-circuits to the existing row. -/
theorem create_conflict_translation_spec_witness :
    ArtistsService.create sampleDB ⟨"artist789", "New Artist", none⟩ (some ⟨"P2002"⟩)
      = .error .conflict ∧
    ArtistsService.create sampleDB ⟨"artist789", "New Artist", none⟩ (some ⟨"P1001"⟩)
      = .error (.store ⟨"P1001"⟩) ∧
    ArtistsService.create sampleDB ⟨"artist123", "Whatever", none⟩ (some ⟨"P2002"⟩)
      = .ok (sampleArtist, sampleDB) ∧
    AlbumsService.create sampleDB ⟨"album789", "New Album", none, none, "artist123"⟩
      sampleArtistCatalog none (some ⟨"P2002"⟩) = .error .conflict ∧
    AlbumsService.create sampleDB ⟨"album789", "New Album", none, none, "artist123"⟩
      sampleArtistCatalog none (some ⟨"P1001"⟩) = .error (.store ⟨"P1001"⟩) ∧
    AlbumsService.create sampleDB ⟨"album123", "Whatever", none, none, "artist123"⟩
      sampleArtistCatalog (some ⟨"P2002"⟩) (some ⟨"P2002"⟩) = .ok (sampleAlbum, sampleDB) := by
  refine ⟨?_, ?_, ?_, ?_, ?_, ?_⟩
  · exact ((create_conflict_translation_spec sampleDB).1
      ⟨"artist789", "New Artist", none⟩ ⟨"P2002"⟩ (by decide)).1 (by decide)
  · exact ((create_conflict_translation_spec sampleDB).1
      ⟨"artist789", "New Artist", none⟩ ⟨"P1001"⟩ (by decide)).2 (by decide)
  · exact (create_conflict_translation_spec sampleDB).2.1
      ⟨"artist123", "Whatever", none⟩ (some ⟨"P2002"⟩) sampleArtist (by decide)
  · exact ((create_conflict_translation_spec sampleDB).2.2.1
      ⟨"album789", "New Album", none, none, "artist123"⟩ sampleArtistCatalog none ⟨"P2002"⟩
      sampleArtist (by decide) (by decide)).1 (by decide)
  · exact ((create_conflict_translation_spec sampleDB).2.2.1
      ⟨"album789", "New Album", none, none, "artist123"⟩ sampleArtistCatalog none ⟨"P1001"⟩
      sampleArtist (by decide) (by decide)).2 (by decide)
  · exact (create_conflict_translation_spec sampleDB).2.2.2
      ⟨"album123", "Whatever", none, none, "artist123"⟩ sampleArtistCatalog
      (some ⟨"P2002"⟩) (some ⟨"P2002"⟩) sampleAlbum (by decide)

/-- Helper: the descending-creation-time relation is total. -/
theorem byCreatedAtDesc_total :
    ∀ a b : Review, ReviewsService.byCreatedAtDesc a b ∨ ReviewsService.byCreatedAtDesc b a :=
  fun a b => (Nat.le_total b.createdAt a.createdAt).imp id id

/-- Helper: the window of rows a findMany with skip/take and descending
ordering returns is sorted newest-first. -/
theorem sorted_findManyWindow (rows : List Review) (skip take : Nat) :
    List.Sorted ReviewsService.byCreatedAtDesc (ReviewsService.findManyWindow rows skip take) := by
  have inst1 : IsTotal Review ReviewsService.byCreatedAtDesc := ⟨byCreatedAtDesc_total⟩
  have inst2 : IsTrans Review ReviewsService.byCreatedAtDesc :=
    ⟨fun a b c hab hbc => Nat.le_trans hbc hab⟩
  have hs : List.Sorted ReviewsService.byCreatedAtDesc
      (rows.insertionSort ReviewsService.byCreatedAtDesc) :=
    List.sorted_insertionSort ReviewsService.byCreatedAtDesc rows
  exact hs.sublist ((List.take_sublist _ _).trans (List.drop_sublist _ _))

/-- Helper: each row of the window is one of the rows given to findMany. -/
theorem mem_findManyWindow {rows : List Review} {skip take : Nat} {x : Review}
    (hx : x ∈ ReviewsService.findManyWindow rows skip take) : x ∈ rows := by
  have h1 : x ∈ rows.insertionSort ReviewsService.byCreatedAtDesc :=
    ((List.take_sublist _ _).trans (List.drop_sublist _ _)).subset hx
  exact (List.perm_insertionSort ReviewsService.byCreatedAtDesc rows).subset h1

/-- **C9** The review listing operations list, listByAlbum and listByUser
each return the matching items together with total, skip, take and hasMore
where hasMore is true exactly when skip + take < total; items are ordered
descending by creation time (and drawn from the matching rows); and the album
and user variants fail NotFound when the referenced album or user does not
exist. -/
theorem review_listing_spec (db : DB) (albumId userId skip take : Nat) :
    ((ReviewsService.findAll db skip take).meta =
        ⟨db.reviews.length, skip, take, decide (skip + take < db.reviews.length)⟩ ∧
     ((ReviewsService.findAll db skip take).meta.hasMore = true ↔
        skip + take < db.reviews.length) ∧
     List.Sorted ReviewsService.byCreatedAtDesc (ReviewsService.findAll db skip take).reviews ∧
     (∀ x ∈ (ReviewsService.findAll db skip take).reviews, x ∈ db.reviews)) ∧
    ((db.albums.find? (fun al => al.id == albumId) = none →
        ReviewsService.findByAlbumId db albumId skip take = .error .notFound) ∧
     (∀ al, db.albums.find? (fun al => al.id == albumId) = some al →
       ReviewsService.findByAlbumId db albumId skip take =
         .ok ⟨ReviewsService.findManyWindow
                (db.reviews.filter (fun r => r.albumId == albumId)) skip take,
              ⟨(db.reviews.filter (fun r => r.albumId == albumId)).length, skip, take,
               decide (skip + take <
                 (db.reviews.filter (fun r => r.albumId == albumId)).length)⟩⟩ ∧
       (decide (skip + take < (db.reviews.filter (fun r => r.albumId == albumId)).length)
          = true ↔
        skip + take < (db.reviews.filter (fun r => r.albumId == albumId)).length) ∧
       List.Sorted ReviewsService.byCreatedAtDesc
         (ReviewsService.findManyWindow
           (db.reviews.filter (fun r => r.albumId == albumId)) skip take) ∧
       (∀ x ∈ ReviewsService.findManyWindow
           (db.reviews.filter (fun r => r.albumId == albumId)) skip take,
         x ∈ db.reviews ∧ x.albumId = albumId))) ∧
    ((db.users.find? (fun u => u.id == userId) = none →
        ReviewsService.findByUserId db userId skip take = .error .notFound) ∧
     (∀ u, db.users.find? (fun u => u.id == userId) = some u →
       ReviewsService.findByUserId db userId skip take =
         .ok ⟨ReviewsService.findManyWindow
                (db.reviews.filter (fun r => r.userId == userId)) skip take,
              ⟨(db.reviews.filter (fun r => r.userId == userId)).length, skip, take,
               decide (skip + take <
                 (db.reviews.filter (fun r => r.userId == userId)).length)⟩⟩ ∧
       (decide (skip + take < (db.reviews.filter (fun r => r.userId == userId)).length)
          = true ↔
        skip + take < (db.reviews.filter (fun r => r.userId == userId)).length) ∧
       List.Sorted ReviewsService.byCreatedAtDesc
         (ReviewsService.findManyWindow
           (db.reviews.filter (fun r => r.userId == userId)) skip take) ∧
       (∀ x ∈ ReviewsService.findManyWindow
           (db.reviews.filter (fun r => r.userId == userId)) skip take,
         x ∈ db.reviews ∧ x.userId = userId))) := by
  refine ⟨⟨rfl, by simp [ReviewsService.findAll], ?_, ?_⟩, ⟨?_, ?_⟩, ⟨?_, ?_⟩⟩
  · exact sorted_findManyWindow db.reviews skip take
  · intro x hx
    exact mem_findManyWindow hx
  · intro h
    simp [ReviewsService.findByAlbumId, h]
  · intro al hfind
    refine ⟨by simp [ReviewsService.findByAlbumId, hfind], by simp, ?_, ?_⟩
    · exact sorted_findManyWindow _ skip take
    · intro x hx
      have hx2 := List.mem_filter.mp (mem_findManyWindow hx)
      exact ⟨hx2.1, by simpa using hx2.2⟩
  · intro h
    simp [ReviewsService.findByUserId, h]
  · intro u hfind
    refine ⟨by simp [ReviewsService.findByUserId, hfind], by simp, ?_, ?_⟩
    · exact sorted_findManyWindow _ skip take
    · intro x hx
      have hx2 := List.mem_filter.mp (mem_findManyWindow hx)
      exact ⟨hx2.1, by simpa using hx2.2⟩

/-- Witness for C9 at the sample store. -/
theorem review_listing_spec_witness :
    (ReviewsService.findAll sampleDB 0 10).meta =
      ⟨sampleDB.reviews.length, 0, 10, decide (0 + 10 < sampleDB.reviews.length)⟩ ∧
    ReviewsService.findByAlbumId sampleDB 99 0 10 = .error .notFound ∧
    ReviewsService.findByUserId sampleDB 99 0 10 = .error .notFound ∧
    ReviewsService.findByAlbumId sampleDB 1 0 10 =
      .ok ⟨ReviewsService.findManyWindow
             (sampleDB.reviews.filter (fun r => r.albumId == 1)) 0 10,
           ⟨(sampleDB.reviews.filter (fun r => r.albumId == 1)).length, 0, 10,
            decide (0 + 10 <
              (sampleDB.reviews.filter (fun r => r.albumId == 1)).length)⟩⟩ ∧
    List.Sorted ReviewsService.byCreatedAtDesc
      (ReviewsService.findManyWindow
        (sampleDB.reviews.filter (fun r => r.albumId == 1)) 0 10) ∧
    ReviewsService.findByUserId sampleDB 2 0 10 =
      .ok ⟨ReviewsService.findManyWindow
             (sampleDB.reviews.filter (fun r => r.userId == 2)) 0 10,
           ⟨(sampleDB.reviews.filter (fun r => r.userId == 2)).length, 0, 10,
            decide (0 + 10 <
              (sampleDB.reviews.filter (fun r => r.userId == 2)).length)⟩⟩ := by
  refine ⟨?_, ?_, ?_, ?_, ?_, ?_⟩
  · exact (review_listing_spec sampleDB 1 1 0 10).1.1
  · exact (review_listing_spec sampleDB 99 1 0 10).2.1.1 (by decide)
  · exact (review_listing_spec sampleDB 1 99 0 10).2.2.1 (by decide)
  · exact ((review_listing_spec sampleDB 1 1 0 10).2.1.2 sampleAlbum (by decide)).1
  · exact ((review_listing_spec sampleDB 1 1 0 10).2.1.2 sampleAlbum (by decide)).2.2.1
  · exact ((review_listing_spec sampleDB 1 2 0 10).2.2.2 sampleUser2 (by decide)).1

/-- Helper: with no store interference, ArtistsService.create never fails: it
returns the row found by the re-check, or inserts a fresh one. -/
theorem artist_create_no_interference (db : DB) (dto : CreateArtistDto) :
    (∀ existing, db.artists.find? (fun a => a.externalId == dto.externalId) = some existing →
      ArtistsService.create db dto none = .ok (existing, db)) ∧
    (db.artists.find? (fun a => a.externalId == dto.externalId) = none →
      ArtistsService.create db dto none =
        .ok (⟨db.nextArtistId, dto.externalId, dto.name, dto.imageUrl⟩,
             { db with
                artists := db.artists ++ [⟨db.nextArtistId, dto.externalId, dto.name, dto.imageUrl⟩],
                nextArtistId := db.nextArtistId + 1 })) := by
  constructor
  · intro existing hfind
    simp [ArtistsService.create, hfind]
  · intro hfind
    have hany : db.artists.any (fun a => a.externalId == dto.externalId) = false := by
      rw [List.any_eq_false]
      intro x hx
      simpa using List.find?_eq_none.mp hfind x hx
    simp [ArtistsService.create, prismaArtistCreate, hfind, hany]

/-- **C1** Resolving an artist by external id is idempotent and cache-aside:
if an artist row with that externalId already exists locally,
getArtistDetailsByExternalId returns it without calling the catalog client
and without touching the store; and two successive calls with the same
externalId (sequential, against a deterministic catalog) return rows with the
same local id, the second call changes nothing, and at most one row is
created in total. -/
theorem resolve_artist_idempotent (db : DB)
    (catalog : String → Except ApiError ArtistDetails) (externalId : String) :
    (∀ existing, db.artists.find? (fun a => a.externalId == externalId) = some existing →
      ArtistsService.getArtistDetailsByExternalId db catalog externalId =
        .ok ⟨existing, db, false⟩) ∧
    (∀ res1 res2,
      ArtistsService.getArtistDetailsByExternalId db catalog externalId = .ok res1 →
      ArtistsService.getArtistDetailsByExternalId res1.db catalog externalId = .ok res2 →
      res2.artist.id = res1.artist.id ∧ res2.db = res1.db ∧
      res1.db.artists.length ≤ db.artists.length + 1) := by
  have hit : ∀ (d : DB) existing,
      d.artists.find? (fun a => a.externalId == externalId) = some existing →
      ArtistsService.getArtistDetailsByExternalId d catalog externalId =
        .ok ⟨existing, d, false⟩ := by
    intro d existing hfind
    simp [ArtistsService.getArtistDetailsByExternalId, hfind]
  refine ⟨fun existing h => hit db existing h, ?_⟩
  intro res1 res2 h1 h2
  cases hfind : db.artists.find? (fun a => a.externalId == externalId) with
  | some existing =>
    rw [hit db existing hfind] at h1
    obtain rfl := Except.ok.inj h1
    rw [hit db existing hfind] at h2
    obtain rfl := Except.ok.inj h2
    exact ⟨rfl, rfl, Nat.le_succ _⟩
  | none =>
    cases hcat : catalog externalId with
    | error e =>
      rw [show ArtistsService.getArtistDetailsByExternalId db catalog externalId = .error e by
        simp [ArtistsService.getArtistDetailsByExternalId, hfind, hcat]] at h1
      exact absurd h1 (by simp)
    | ok d =>
      cases hfind2 : db.artists.find? (fun a => a.externalId == d.externalId) with
      | some ex =>
        have hcr : ArtistsService.create db ⟨d.externalId, d.name, d.imageUrl⟩ none
            = .ok (ex, db) :=
          (artist_create_no_interference db ⟨d.externalId, d.name, d.imageUrl⟩).1 ex hfind2
        have hc1 : ArtistsService.getArtistDetailsByExternalId db catalog externalId
            = .ok ⟨ex, db, true⟩ := by
          simp [ArtistsService.getArtistDetailsByExternalId, hfind, hcat, hcr]
        rw [hc1] at h1
        obtain rfl := Except.ok.inj h1
        dsimp only [] at h2
        rw [hc1] at h2
        obtain rfl := Except.ok.inj h2
        exact ⟨rfl, rfl, Nat.le_succ _⟩
      | none =>
        have hcr : ArtistsService.create db ⟨d.externalId, d.name, d.imageUrl⟩ none =
            .ok (⟨db.nextArtistId, d.externalId, d.name, d.imageUrl⟩,
              { db with
                 artists := db.artists ++ [⟨db.nextArtistId, d.externalId, d.name, d.imageUrl⟩],
                 nextArtistId := db.nextArtistId + 1 }) :=
          (artist_create_no_interference db ⟨d.externalId, d.name, d.imageUrl⟩).2 hfind2
        have hc1 : ArtistsService.getArtistDetailsByExternalId db catalog externalId =
            .ok ⟨⟨db.nextArtistId, d.externalId, d.name, d.imageUrl⟩,
              { db with
                 artists := db.artists ++ [⟨db.nextArtistId, d.externalId, d.name, d.imageUrl⟩],
                 nextArtistId := db.nextArtistId + 1 }, true⟩ := by
          simp [ArtistsService.getArtistDetailsByExternalId, hfind, hcat, hcr]
        rw [hc1] at h1
        obtain rfl := Except.ok.inj h1
        dsimp only [] at h2
        by_cases heq2 : d.externalId = externalId
        · have hfd : (db.artists ++ [(⟨db.nextArtistId, d.externalId, d.name, d.imageUrl⟩ :
              Artist)]).find? (fun a => a.externalId == externalId)
              = some ⟨db.nextArtistId, d.externalId, d.name, d.imageUrl⟩ := by
            simp [List.find?_append, hfind, heq2]
          rw [hit _ _ hfd] at h2
          obtain rfl := Except.ok.inj h2
          refine ⟨rfl, rfl, by simp⟩
        · have hmiss : (db.artists ++ [(⟨db.nextArtistId, d.externalId, d.name, d.imageUrl⟩ :
              Artist)]).find? (fun a => a.externalId == externalId) = none := by
            simp [List.find?_append, heq2]
            intro x hx
            simpa using List.find?_eq_none.mp hfind x hx
          have hfind2b : (db.artists ++ [(⟨db.nextArtistId, d.externalId, d.name, d.imageUrl⟩ :
              Artist)]).find? (fun a => a.externalId == d.externalId)
              = some ⟨db.nextArtistId, d.externalId, d.name, d.imageUrl⟩ := by
            simp [List.find?_append, hfind2]
          have hcr2 : ArtistsService.create
              { db with
                 artists := db.artists ++ [⟨db.nextArtistId, d.externalId, d.name, d.imageUrl⟩],
                 nextArtistId := db.nextArtistId + 1 }
              ⟨d.externalId, d.name, d.imageUrl⟩ none =
              .ok (⟨db.nextArtistId, d.externalId, d.name, d.imageUrl⟩,
                { db with
                   artists := db.artists ++ [⟨db.nextArtistId, d.externalId, d.name, d.imageUrl⟩],
                   nextArtistId := db.nextArtistId + 1 }) :=
            (artist_create_no_interference _ ⟨d.externalId, d.name, d.imageUrl⟩).1 _ hfind2b
          have hc2 : ArtistsService.getArtistDetailsByExternalId
              { db with
                 artists := db.artists ++ [⟨db.nextArtistId, d.externalId, d.name, d.imageUrl⟩],
                 nextArtistId := db.nextArtistId + 1 } catalog externalId =
              .ok ⟨⟨db.nextArtistId, d.externalId, d.name, d.imageUrl⟩,
                { db with
                   artists := db.artists ++ [⟨db.nextArtistId, d.externalId, d.name, d.imageUrl⟩],
                   nextArtistId := db.nextArtistId + 1 }, true⟩ := by
            simp [ArtistsService.getArtistDetailsByExternalId, hmiss, hcat, hcr2]
          rw [hc2] at h2
          obtain rfl := Except.ok.inj h2
          refine ⟨rfl, rfl, by simp⟩

/-- Witness for C1: resolving an unseen external id twice against the empty
store creates one row and returns it both times; a locally known external id
is returned without a catalog call. -/
theorem resolve_artist_idempotent_witness :
    ArtistsService.getArtistDetailsByExternalId sampleDB sampleArtistCatalog "artist123" =
      .ok ⟨sampleArtist, sampleDB, false⟩ ∧
    ArtistsService.getArtistDetailsByExternalId emptyDB sampleArtistCatalog "artistX" =
      .ok ⟨⟨1, "artistX", "Some Artist", none⟩,
           ⟨[], [⟨1, "artistX", "Some Artist", none⟩], [], [], 2, 1, 1⟩, true⟩ ∧
    ((⟨⟨1, "artistX", "Some Artist", none⟩,
        ⟨[], [⟨1, "artistX", "Some Artist", none⟩], [], [], 2, 1, 1⟩, false⟩ :
          ArtistsService.ResolveResult).artist.id =
       (⟨⟨1, "artistX", "Some Artist", none⟩,
         ⟨[], [⟨1, "artistX", "Some Artist", none⟩], [], [], 2, 1, 1⟩, true⟩ :
           ArtistsService.ResolveResult).artist.id ∧
     (⟨⟨1, "artistX", "Some Artist", none⟩,
        ⟨[], [⟨1, "artistX", "Some Artist", none⟩], [], [], 2, 1, 1⟩, false⟩ :
          ArtistsService.ResolveResult).db =
       (⟨⟨1, "artistX", "Some Artist", none⟩,
         ⟨[], [⟨1, "artistX", "Some Artist", none⟩], [], [], 2, 1, 1⟩, true⟩ :
           ArtistsService.ResolveResult).db ∧
     (⟨⟨1, "artistX", "Some Artist", none⟩,
        ⟨[], [⟨1, "artistX", "Some Artist", none⟩], [], [], 2, 1, 1⟩, true⟩ :
          ArtistsService.ResolveResult).db.artists.length ≤ emptyDB.artists.length + 1) := by
  refine ⟨?_, by rfl, ?_⟩
  · exact (resolve_artist_idempotent sampleDB sampleArtistCatalog "artist123").1
      sampleArtist (by decide)
  · exact (resolve_artist_idempotent emptyDB sampleArtistCatalog "artistX").2
      ⟨⟨1, "artistX", "Some Artist", none⟩,
       ⟨[], [⟨1, "artistX", "Some Artist", none⟩], [], [], 2, 1, 1⟩, true⟩
      ⟨⟨1, "artistX", "Some Artist", none⟩,
       ⟨[], [⟨1, "artistX", "Some Artist", none⟩], [], [], 2, 1, 1⟩, false⟩
      (by rfl) (by rfl)

/-- Counterexample to C8 as stated: the direct lookup 404s, the fallback
search succeeds with zero results, and the URL-encoded retry oracle would
succeed — yet getAlbumDetails raises the original not-found error instead of
returning the retry record, because the retry is only attempted when the
search returned at least one result. -/
theorem get_album_details_fallback_counterexample :
    MusicApiService.getAlbumDetails (fun _ => .notFound404)
      (fun _ => .success rawAltAlbum) (fun _ => .ok []) "alt1" = .error .notFound ∧
    (fun _ => MusicApiService.FetchResult.success rawAltAlbum) "alt1"
      = MusicApiService.FetchResult.success rawAltAlbum ∧
    (Except.error ApiError.notFound :
        Except ApiError MusicApiService.AlbumLookupResult) ≠
      Except.ok (MusicApiService.AlbumLookupResult.detail
        (MusicApiService.formatAlbumDetails rawAltAlbum)) := by
  refine ⟨by rfl, by rfl, by simp⟩

/-- **C8, amended** When the direct album lookup reports not-found,
getAlbumDetails falls back to a search matched for exact externalId equality
and returns the matching record if one exists; otherwise, only when the
search succeeded with at least one result, it retries the direct lookup with
the URL-encoded id and returns that record on success; in every other case —
search failed, search returned no results, or the retry failed — the original
not-found error is raised (never an error from the fallback attempts). -/
theorem get_album_details_fallback_spec
    (fetchAlbum fetchAlbumEncoded : String → MusicApiService.FetchResult)
    (search : String → Except ApiError (List MusicApiService.AlbumSearchResult))
    (externalId : String)
    (hdirect : fetchAlbum externalId.trim = .notFound404) :
    (∀ err, search externalId = .error err →
      MusicApiService.getAlbumDetails fetchAlbum fetchAlbumEncoded search externalId =
        .error .notFound) ∧
    (search externalId = .ok [] →
      MusicApiService.getAlbumDetails fetchAlbum fetchAlbumEncoded search externalId =
        .error .notFound) ∧
    (∀ results m, search externalId = .ok results →
      results.find? (fun album => album.externalId == externalId) = some m →
      MusicApiService.getAlbumDetails fetchAlbum fetchAlbumEncoded search externalId =
        .ok (.fromSearch m)) ∧
    (∀ results, search externalId = .ok results → results ≠ [] →
      results.find? (fun album => album.externalId == externalId) = none →
      ((∀ altAlbum, fetchAlbumEncoded externalId = .success altAlbum →
         MusicApiService.getAlbumDetails fetchAlbum fetchAlbumEncoded search externalId =
           .ok (.detail (MusicApiService.formatAlbumDetails altAlbum))) ∧
       (fetchAlbumEncoded externalId = .notFound404 →
         MusicApiService.getAlbumDetails fetchAlbum fetchAlbumEncoded search externalId =
           .error .notFound) ∧
       (fetchAlbumEncoded externalId = .otherError →
         MusicApiService.getAlbumDetails fetchAlbum fetchAlbumEncoded search externalId =
           .error .notFound))) := by
  refine ⟨?_, ?_, ?_, ?_⟩
  · intro err hs
    simp [MusicApiService.getAlbumDetails, hdirect, hs]
  · intro hs
    simp [MusicApiService.getAlbumDetails, hdirect, hs]
  · intro results m hs hfind
    have hne : results ≠ [] := by
      intro h0
      rw [h0] at hfind
      simp at hfind
    have hpos : results.length > 0 := List.length_pos.mpr hne
    simp [MusicApiService.getAlbumDetails, hdirect, hs, hpos, hfind]
  · intro results hs hne hfind
    have hpos : results.length > 0 := List.length_pos.mpr hne
    refine ⟨?_, ?_, ?_⟩
    · intro altAlbum henc
      simp [MusicApiService.getAlbumDetails, hdirect, hs, hpos, hfind, henc]
    · intro henc
      simp [MusicApiService.getAlbumDetails, hdirect, hs, hpos, hfind, henc]
    · intro henc
      simp [MusicApiService.getAlbumDetails, hdirect, hs, hpos, hfind, henc]

/-- Witness for the amended C8, exercising each fallback outcome on concrete
oracles. -/
theorem get_album_details_fallback_spec_witness :
    MusicApiService.getAlbumDetails (fun _ => .notFound404)
      (fun _ => .success rawAltAlbum) (fun _ => .ok [otherSearchHit]) "alt1" =
      .ok (.detail (MusicApiService.formatAlbumDetails rawAltAlbum)) ∧
    MusicApiService.getAlbumDetails (fun _ => .notFound404)
      (fun _ => .notFound404) (fun _ => .ok [otherSearchHit]) "alt1" =
      .error .notFound ∧
    MusicApiService.getAlbumDetails (fun _ => .notFound404)
      (fun _ => .notFound404) (fun _ => .ok [altSearchHit]) "alt1" =
      .ok (.fromSearch altSearchHit) ∧
    MusicApiService.getAlbumDetails (fun _ => .notFound404)
      (fun _ => .success rawAltAlbum) (fun _ => .error .internalError) "alt1" =
      .error .notFound := by
  refine ⟨?_, ?_, ?_, ?_⟩
  · exact (((get_album_details_fallback_spec (fun _ => .notFound404)
      (fun _ => .success rawAltAlbum) (fun _ => .ok [otherSearchHit]) "alt1"
      (by rfl)).2.2.2 [otherSearchHit] (by rfl) (by simp) (by decide)).1)
      rawAltAlbum (by rfl)
  · exact (((get_album_details_fallback_spec (fun _ => .notFound404)
      (fun _ => .notFound404) (fun _ => .ok [otherSearchHit]) "alt1"
      (by rfl)).2.2.2 [otherSearchHit] (by rfl) (by simp) (by decide)).2.1)
      (by rfl)
  · exact ((get_album_details_fallback_spec (fun _ => .notFound404)
      (fun _ => .notFound404) (fun _ => .ok [altSearchHit]) "alt1"
      (by rfl)).2.2.1 [altSearchHit] altSearchHit (by rfl) (by decide))
  · exact ((get_album_details_fallback_spec (fun _ => .notFound404)
      (fun _ => .success rawAltAlbum) (fun _ => .error .internalError) "alt1"
      (by rfl)).1 .internalError (by rfl))
